import Mathlib

/-!
Shallow embedding of ZeroTierReconnecter (server registry, ping scheduler,
persistence logic, client auto-heal backoff, and IP validation), with the
claims of the spec settled as theorems.

Conventions of the embedding:
* Python `float` timestamps and intervals are modelled as `ℚ` (only
  comparisons and `+`/`-`/`*` on them occur in the modelled code).
* Python `dict` is modelled as an association list `List (String × α)`;
  the operations below reproduce dict semantics on the unique-key lists
  the program maintains (insertion appends, update replaces in place).
* `time.time()` is an explicit `now : ℚ` argument to each operation.
* The `threading` locks only serialise calls; each locked block is one
  atomic step here.
* `heapq` is modelled as a `List PingTask` used as a multiset: `heappush`
  appends, the pop-while-due loop of `get_ready_ips` removes exactly the
  tasks with `next_ping_time ≤ now` (the heap top is the minimum, so the
  loop stops precisely when no task is due), and the heap top used by
  `next_ready_in` is the minimum of the list.
-/

namespace ZTR

/-! ### Association-list helpers (Python dict semantics) -/

def alookup {α : Type} : List (String × α) → String → Option α
  | [], _ => none
  | (k, v) :: rest, ip => if k = ip then some v else alookup rest ip

def aupdate {α : Type} : List (String × α) → String → α → List (String × α)
  | [], _, _ => []
  | (k, w) :: rest, ip, v =>
      if k = ip then (k, v) :: rest else (k, w) :: aupdate rest ip v

def aremove {α : Type} (l : List (String × α)) (ip : String) : List (String × α) :=
  l.filter (fun p => p.1 ≠ ip)

/-! ### `src/server/client_manager.py` -/

/-- Record type `ClientInfo` with slots `last_seen`, `last_ping_ok`, `last_ping_at`. -/
structure ClientInfo where
  last_seen : ℚ
  last_ping_ok : Bool
  last_ping_at : ℚ
deriving DecidableEq

/-- State of `ThreadSafeClientManager`: the `_clients` dict and the `_data_dirty`
flag. The `_last_data_hash` md5 field is write-only diagnostics (never read by
any modelled operation or claim) and is omitted. -/
structure ClientManager where
  clients : List (String × ClientInfo)
  data_dirty : Bool
deriving DecidableEq

/-- Operation `get_data_snapshot_and_mark_clean`: under the lock, if not dirty return
`None`; else snapshot the clients dict, set `_data_dirty = False`, and return
the snapshot. Result: (returned snapshot, state after the call). -/
def get_data_snapshot_and_mark_clean (m : ClientManager) :
    Option (List (String × ClientInfo)) × ClientManager :=
  if m.data_dirty then
    (some m.clients, { m with data_dirty := false })
  else
    (none, m)

/-- Operation `mark_data_dirty`: set `_data_dirty = True`. -/
def mark_data_dirty (m : ClientManager) : ClientManager :=
  { m with data_dirty := true }

/-- Operation `is_data_dirty`. -/
def is_data_dirty (m : ClientManager) : Bool :=
  m.data_dirty

/-- Operation `add_or_update_client(ip, last_seen=now)` as called by the
remember handler: insert a fresh record (dirty) or update
`last_seen`, marking dirty only on a real change. -/
def add_or_update_last_seen (m : ClientManager) (ip : String) (now : ℚ) :
    ClientManager :=
  match alookup m.clients ip with
  | none =>
      { clients := m.clients ++ [(ip, ⟨now, false, 0⟩)], data_dirty := true }
  | some c =>
      if c.last_seen = now then m
      else { clients := aupdate m.clients ip { c with last_seen := now },
             data_dirty := true }

/-- Result of `get_stats`. -/
structure Stats where
  total : ℕ
  active : ℕ
  online : ℕ
  offline : ℕ
  never_pinged : ℕ
deriving DecidableEq

/-- Body of the `for info in self._clients.values()` loop of `get_stats`. -/
def stats_step (now thr : ℚ) (s : Stats) (info : ClientInfo) : Stats :=
  let s1 := if now - info.last_seen ≤ thr then { s with active := s.active + 1 } else s
  if info.last_ping_at = 0 then { s1 with never_pinged := s1.never_pinged + 1 }
  else if info.last_ping_ok then { s1 with online := s1.online + 1 }
  else { s1 with offline := s1.offline + 1 }

def stats_fold (now thr : ℚ) : Stats → List (String × ClientInfo) → Stats
  | s, [] => s
  | s, (_, info) :: rest => stats_fold now thr (stats_step now thr s info) rest

/-- Operation `get_stats(offline_threshold)`: `total = len(_clients)`, then one pass
counting `active` (by `now - last_seen ≤ threshold`) and the mutually
exclusive `never_pinged` / `online` / `offline` classification. -/
def get_stats (m : ClientManager) (now thr : ℚ) : Stats :=
  stats_fold now thr
    { total := m.clients.length, active := 0, online := 0, offline := 0,
      never_pinged := 0 }
    m.clients

/-! ### `src/server/ping_scheduler.py` -/

/-- Dataclass `PingTask` (`__lt__` orders by `next_ping_time`). -/
structure PingTask where
  ip : String
  next_ping_time : ℚ
  task_version : ℕ
deriving DecidableEq

/-- State of `OptimizedPingScheduler`: the `_ping_queue` heap (as a multiset,
see the header), the `_clients` dict, `_client_versions`, the periodic
cleanup counter and the configured `ping_interval`. -/
structure Scheduler where
  ping_queue : List PingTask
  clients : List (String × ClientInfo)
  client_versions : List (String × ℕ)
  ping_result_count : ℕ
  ping_interval : ℚ
deriving DecidableEq

/-- Keep-condition of the `_cleanup_queue` rebuild loop: ip active, version
current, and `next_ping_time > now - ping_interval * 1.5`. -/
def cleanup_keep (s : Scheduler) (now : ℚ) (t : PingTask) : Bool :=
  (alookup s.clients t.ip).isSome &&
  (match alookup s.client_versions t.ip with
   | some v => t.task_version = v
   | none => false) &&
  decide (now - s.ping_interval * 1.5 < t.next_ping_time)

/-- Operation `_cleanup_queue`: return untouched if `old_size ≤ 5`; return untouched if
`old_size < 20` (the hard-coded `estimated_cleanup_ratio = 0.3 < 0.5` makes
that guard unconditional); otherwise filter the queue by `cleanup_keep` and
install the rebuilt heap only when the cleaned fraction exceeds 10%. -/
def cleanup_queue (s : Scheduler) (now : ℚ) : Scheduler :=
  if s.ping_queue.length ≤ 5 then s
  else if s.ping_queue.length < 20 then s
  else if (1 : ℚ) / 10 <
      ((s.ping_queue.length - (s.ping_queue.filter (cleanup_keep s now)).length : ℕ) : ℚ)
        / (s.ping_queue.length : ℚ) then
    { s with ping_queue := s.ping_queue.filter (cleanup_keep s now) }
  else s

/-- Operation `update_ping_result(ip, success)`: if the ip is known, record the probe
result, bump the version, push a task due at `now + ping_interval`, then run
the three cleanup triggers (size vs `max(5, clients*1.2)`, absolute 500, and
every 50th result). Unknown ips are ignored. -/
def update_ping_result (s : Scheduler) (ip : String) (success : Bool) (now : ℚ) :
    Scheduler :=
  match alookup s.clients ip with
  | none => s
  | some c =>
    let clients := aupdate s.clients ip
      { c with last_ping_ok := success, last_ping_at := now }
    let v := (alookup s.client_versions ip).getD 0 + 1
    let versions := aupdate s.client_versions ip v
    let s1 : Scheduler :=
      { s with clients := clients, client_versions := versions,
               ping_queue := s.ping_queue ++ [⟨ip, now + s.ping_interval, v⟩] }
    let queue_size := s1.ping_queue.length
    let client_count := s1.clients.length
    let s2 :=
      if max 5 ((client_count : ℚ) * 1.2) < (queue_size : ℚ) then cleanup_queue s1 now
      else if 500 < queue_size then cleanup_queue s1 now
      else s1
    if 50 ≤ s2.ping_result_count + 1 then
      cleanup_queue { s2 with ping_result_count := 0 } now
    else
      { s2 with ping_result_count := s2.ping_result_count + 1 }

/-- Validity check of a popped task in `get_ready_ips`: ip still in
`_clients`, ip still in `_client_versions`, and version current. -/
def task_current (s : Scheduler) (t : PingTask) : Bool :=
  (alookup s.clients t.ip).isSome &&
  (match alookup s.client_versions t.ip with
   | some v => t.task_version = v
   | none => false)

/-- Operation `get_ready_ips()`: pop every task with `next_ping_time ≤ now` off the
heap, keep those passing `task_current`, and deduplicate the ips into a set.
Result: (returned ip list, scheduler after the call). -/
def get_ready_ips (s : Scheduler) (now : ℚ) : List String × Scheduler :=
  let due := s.ping_queue.filter (fun t => decide (t.next_ping_time ≤ now))
  let rest := s.ping_queue.filter (fun t => !decide (t.next_ping_time ≤ now))
  (((due.filter (task_current s)).map PingTask.ip).dedup,
   { s with ping_queue := rest })

/-- Operation `remove_client(ip)`: drop the ip from `_clients` and `_client_versions`;
queued tasks stay and are filtered when popped. -/
def remove_client (s : Scheduler) (ip : String) : Scheduler :=
  { s with clients := aremove s.clients ip,
           client_versions := aremove s.client_versions ip }

/-- Minimum `next_ping_time` of a non-empty heap (its top). -/
def queue_min_time : PingTask → List PingTask → ℚ
  | t, [] => t.next_ping_time
  | t, u :: rest => min t.next_ping_time (queue_min_time u rest)

/-- Operation `next_ready_in()`: returns `float(ping_interval)` when the heap is empty, else
`max(0.0, top.next_ping_time - now)`. -/
def next_ready_in (s : Scheduler) (now : ℚ) : ℚ :=
  match s.ping_queue with
  | [] => s.ping_interval
  | t :: rest => max 0 (queue_min_time t rest - now)

/-- Outputs of successive `get_ready_ips` calls at the given times. -/
def ready_seq : Scheduler → List ℚ → List (List String)
  | _, [] => []
  | s, t :: ts =>
      (get_ready_ips s t).1 :: ready_seq (get_ready_ips s t).2 ts

/-! ### `src/server/app.py` — `save_client_data` -/

/-- Failure classes distinguished by the `except` clauses of
`save_client_data`: `os_error` for `PermissionError`/`OSError`,
`serde_error` for `TypeError`/`ValueError`, `other_error` for the final
generic handler. -/
inductive SaveError where
  | os_error
  | serde_error
  | other_error
deriving DecidableEq

/-- Operation `save_client_data` after the shutdown/mkdir preamble: take the atomic
snapshot; if `None`, skip. Otherwise attempt the temp-file write/rename,
whose outcome is the explicit `write_err` parameter (`none` = success).
On failure the inner handler unlinks the temp file and re-raises; the outer
handlers re-mark the registry dirty for `os_error` and `other_error` but
deliberately not for `serde_error`. Result: (state after the call, whether a
temp file is left behind — the unlink is modelled as succeeding). -/
def save_client_data (m : ClientManager) (write_err : Option SaveError) :
    ClientManager × Bool :=
  let r := get_data_snapshot_and_mark_clean m
  match r.1 with
  | none => (r.2, false)
  | some _ =>
    match write_err with
    | none => (r.2, false)
    | some SaveError.serde_error => (r.2, false)
    | some SaveError.os_error => (mark_data_dirty r.2, false)
    | some SaveError.other_error => (mark_data_dirty r.2, false)

/-! ### `src/client/app.py` — auto-heal exponential backoff -/

/-- Constant `MAX_BACKOFF_EXPONENT = 4`. -/
def MAX_BACKOFF_EXPONENT : ℕ := 4

/-- Constant `MAX_BACKOFF_TIME_SEC = 240`. -/
def MAX_BACKOFF_TIME_SEC : ℤ := 240

/-- Cooldown computed by `auto_heal_loop` before a restart attempt:
`base = max(10, restart_cooldown_sec)`;
`safe_exponent = min(MAX_BACKOFF_EXPONENT, restart_failure_count)`;
`mult = min(16, 2 ** safe_exponent)`;
`backoff = min(MAX_BACKOFF_TIME_SEC, base * mult)`. -/
def auto_heal_cooldown (restart_cooldown_sec : ℤ) (restart_failure_count : ℕ) : ℤ :=
  let base_cooldown : ℤ := max 10 restart_cooldown_sec
  let safe_exponent : ℕ := min MAX_BACKOFF_EXPONENT restart_failure_count
  let exponential_multiplier : ℤ := min 16 (2 ^ safe_exponent)
  min MAX_BACKOFF_TIME_SEC (base_cooldown * exponential_multiplier)

/-! ### `src/common/network_utils.py` — `validate_ip_address`

`ipaddress.ip_address` yields an `IPv4Address` (a 32-bit value) or an
`IPv6Address` (a 128-bit value), or raises `ValueError` on malformed text;
a parsed address is `some (Addr.v4 a)` / `some (Addr.v6 a)` and a parse
failure is `none`. The classification properties below follow the cpython
`ipaddress` network constants. -/

inductive Addr where
  | v4 (a : ℕ)
  | v6 (a : ℕ)
deriving DecidableEq

/-- Property `is_loopback`: IPv4 `127.0.0.0/8`; IPv6 `::1`. -/
def is_loopback : Addr → Bool
  | Addr.v4 a => a / 2 ^ 24 = 127
  | Addr.v6 a => a = 1

/-- Property `is_link_local`: IPv4 `169.254.0.0/16`; IPv6 `fe80::/10`. -/
def is_link_local : Addr → Bool
  | Addr.v4 a => a / 2 ^ 16 = 169 * 256 + 254
  | Addr.v6 a => a / 2 ^ 118 = 0x3FA

/-- Property `is_multicast`: IPv4 `224.0.0.0/4`; IPv6 `ff00::/8`. -/
def is_multicast : Addr → Bool
  | Addr.v4 a => a / 2 ^ 28 = 14
  | Addr.v6 a => a / 2 ^ 120 = 0xFF

/-- Property `is_reserved`: IPv4 `240.0.0.0/4`; IPv6 the cpython `_reserved_networks`
list (`::/8`, `100::/8`, `200::/7`, `400::/6`, `800::/5`, `1000::/4`,
`4000::/3`, `6000::/3`, `8000::/3`, `A000::/3`, `C000::/3`, `E000::/4`,
`F000::/5`, `F800::/6`, `FE00::/9`). -/
def is_reserved : Addr → Bool
  | Addr.v4 a => a / 2 ^ 28 = 15
  | Addr.v6 a =>
      a / 2 ^ 120 = 0x00 || a / 2 ^ 120 = 0x01 ||
      a / 2 ^ 121 = 0x01 || a / 2 ^ 122 = 0x01 ||
      a / 2 ^ 123 = 0x01 || a / 2 ^ 124 = 0x01 ||
      a / 2 ^ 125 = 0x2 || a / 2 ^ 125 = 0x3 ||
      a / 2 ^ 125 = 0x4 || a / 2 ^ 125 = 0x5 ||
      a / 2 ^ 125 = 0x6 || a / 2 ^ 124 = 0xE ||
      a / 2 ^ 123 = 0x1E || a / 2 ^ 122 = 0x3E ||
      a / 2 ^ 119 = 0x1FC

/-- Property `is_unspecified`: IPv4 `0.0.0.0`; IPv6 `::`. -/
def is_unspecified : Addr → Bool
  | Addr.v4 a => a = 0
  | Addr.v6 a => a = 0

/-- Operation `validate_ip_address(ip)`: `False` on a parse `ValueError`; otherwise
reject loopback, link-local, multicast, reserved and unspecified addresses
in that order, and accept everything else. Only the boolean of the returned
`(bool, message)` pair is modelled. -/
def validate_ip_address (p : Option Addr) : Bool :=
  match p with
  | none => false
  | some a =>
      !is_loopback a && !is_link_local a && !is_multicast a &&
      !is_reserved a && !is_unspecified a

/-! ### `src/server/app.py` — `POST /clients/remember` -/

/-- Constant `MAX_IP_LENGTH = 45`. -/
def MAX_IP_LENGTH : ℕ := 45

/-- Constant `MAX_IPS_PER_REQUEST = 20`. -/
def MAX_IPS_PER_REQUEST : ℕ := 20

/-- Membership test for the handler list `valid_ips`: not skipped by the
`len(ip) > MAX_IP_LENGTH` guard and accepted by `validate_ip_address`.
`parse` stands for `ipaddress.ip_address` on the submitted text. -/
def ip_ok (parse : String → Option Addr) (ip : String) : Bool :=
  decide (ip.length ≤ MAX_IP_LENGTH) && validate_ip_address (parse ip)

/-- Response of the handler: an `HTTPException(400)` or the success body
`{ok: true, count, total_clients, filtered_count}`. -/
inductive RememberResult where
  | bad_request
  | ok (count : ℕ) (total_clients : ℕ) (filtered_count : ℕ)
deriving DecidableEq

/-- Handler `remember_clients(payload)`: 400 when the list is empty, longer than
`MAX_IPS_PER_REQUEST`, or filters down to no valid ip; otherwise register
each valid ip in the client manager with `last_seen = now` and answer with
`count = len(valid_ips)`, `total_clients = manager.size()` and
`filtered_count = len(payload.ips) - count`. (The best-effort mirror into
the ping scheduler, whose exceptions the handler swallows, is outside the
registry this claim is about.) Result: (response, manager after the call). -/
def remember_clients (parse : String → Option Addr) (m : ClientManager)
    (now : ℚ) (ips : List String) : RememberResult × ClientManager :=
  if ips.isEmpty then (RememberResult.bad_request, m)
  else if MAX_IPS_PER_REQUEST < ips.length then (RememberResult.bad_request, m)
  else if (ips.filter (ip_ok parse)).isEmpty then
    (RememberResult.bad_request, m)
  else
    (RememberResult.ok (ips.filter (ip_ok parse)).length
      ((ips.filter (ip_ok parse)).foldl
        (fun acc ip => add_or_update_last_seen acc ip now) m).clients.length
      (ips.length - (ips.filter (ip_ok parse)).length),
     (ips.filter (ip_ok parse)).foldl
       (fun acc ip => add_or_update_last_seen acc ip now) m)

/-! ## Claims -/

/-- C1: for every registry state, `get_data_snapshot_and_mark_clean()`
atomically either returns a snapshot of all client records and clears the
dirty flag (when the flag is set) — after which an immediate second call
returns none — or returns none and leaves the registry unchanged (when the
flag is clear). -/
theorem get_data_snapshot_and_mark_clean_atomic (m : ClientManager) :
    (m.data_dirty = true →
      (get_data_snapshot_and_mark_clean m).1 = some m.clients ∧
      (get_data_snapshot_and_mark_clean m).2.clients = m.clients ∧
      (get_data_snapshot_and_mark_clean m).2.data_dirty = false ∧
      (get_data_snapshot_and_mark_clean
        (get_data_snapshot_and_mark_clean m).2).1 = none) ∧
    (m.data_dirty = false →
      (get_data_snapshot_and_mark_clean m).1 = none ∧
      (get_data_snapshot_and_mark_clean m).2 = m) := by
  constructor <;> intro h <;>
    simp [get_data_snapshot_and_mark_clean, h]

def mC1 : ClientManager :=
  ⟨[("10.147.17.2", ⟨100, false, 0⟩)], true⟩

/-- Witness for C1 at a concrete dirty registry: first call returns the
snapshot, immediate second call returns none. -/
theorem get_data_snapshot_and_mark_clean_atomic_witness :
    (get_data_snapshot_and_mark_clean mC1).1 = some mC1.clients ∧
    (get_data_snapshot_and_mark_clean
      (get_data_snapshot_and_mark_clean mC1).2).1 = none :=
  ⟨((get_data_snapshot_and_mark_clean_atomic mC1).1 rfl).1,
   ((get_data_snapshot_and_mark_clean_atomic mC1).1 rfl).2.2.2⟩

/-- C4: the auto-heal restart cooldown equals
`min(240, max(10, restart_cooldown_sec) * min(16, 2^min(4, k)))` for every
failure count `k`, and with `restart_cooldown_sec = 30` the cooldowns for
`k = 0..4` are 30, 60, 120, 240, 240 seconds. -/
theorem auto_heal_cooldown_formula (rc : ℤ) (k : ℕ) :
    auto_heal_cooldown rc k = min 240 (max 10 rc * min 16 (2 ^ min 4 k)) ∧
    auto_heal_cooldown 30 0 = 30 ∧ auto_heal_cooldown 30 1 = 60 ∧
    auto_heal_cooldown 30 2 = 120 ∧ auto_heal_cooldown 30 3 = 240 ∧
    auto_heal_cooldown 30 4 = 240 :=
  ⟨rfl, by decide, by decide, by decide, by decide, by decide⟩

def sC5 : Scheduler :=
  { ping_queue := [⟨"10.147.17.2", 200, 1⟩],
    clients := [("10.147.17.2", ⟨0, false, 0⟩)],
    client_versions := [("10.147.17.2", 1)],
    ping_result_count := 0,
    ping_interval := 60 }

/-- C5 counterexample: with `ping_interval = 60` and a single queued task
due at `t = 200`, `next_ready_in()` at `now = 0` returns 200, which exceeds
`ping_interval` — the code clamps only below, never above. -/
theorem next_ready_in_exceeds_interval :
    next_ready_in sC5 0 = 200 ∧
    ¬ (next_ready_in sC5 0 ≤ sC5.ping_interval) := by
  constructor
  · show max 0 (queue_min_time ⟨"10.147.17.2", 200, 1⟩ [] - 0) = 200
    norm_num [queue_min_time]
  · show ¬ (max 0 (queue_min_time ⟨"10.147.17.2", 200, 1⟩ [] - 0) ≤ 60)
    norm_num [queue_min_time]

/-- C5 amended: `next_ready_in()` returns exactly `ping_interval` when the
queue is empty and `max 0 (min due time − now)` otherwise; it is never
negative (given a non-negative configured interval), but it is not clamped
above by `ping_interval` and can exceed it when the queue minimum lies
further than `ping_interval` in the future. -/
theorem next_ready_in_amended (s : Scheduler) (now : ℚ)
    (h : 0 ≤ s.ping_interval) :
    0 ≤ next_ready_in s now ∧
    (s.ping_queue = [] → next_ready_in s now = s.ping_interval) ∧
    (∀ t rest, s.ping_queue = t :: rest →
      next_ready_in s now = max 0 (queue_min_time t rest - now)) := by
  refine ⟨?_, ?_, ?_⟩
  · unfold next_ready_in
    cases hq : s.ping_queue with
    | nil => exact h
    | cons t rest => exact le_max_left 0 _
  · intro hq
    unfold next_ready_in
    rw [hq]
  · intro t rest hq
    unfold next_ready_in
    rw [hq]

/-- Witness for the amended claim of C5 at a concrete scheduler. -/
theorem next_ready_in_amended_witness :
    (0 : ℚ) ≤ sC5.ping_interval ∧ 0 ≤ next_ready_in sC5 0 :=
  ⟨by norm_num [sC5], (next_ready_in_amended sC5 0 (by norm_num [sC5])).1⟩

def mC6 : ClientManager :=
  ⟨[("10.147.17.3", ⟨100, false, 0⟩)], true⟩

/-- C6 counterexample: on a dirty registry the save takes a snapshot, and a
`TypeError`/`ValueError` failure leaves the dirty flag cleared — the
serialization handler deliberately does not re-mark dirty, contradicting
"for any raised error … the dirty flag becomes true again". -/
theorem save_client_data_serde_not_redirtied :
    (get_data_snapshot_and_mark_clean mC6).1.isSome = true ∧
    (save_client_data mC6 (some SaveError.serde_error)).1.data_dirty = false :=
  ⟨rfl, rfl⟩

/-- C6 amended: whenever a save attempt fails after the snapshot was taken,
the temp file is deleted; the registry is re-marked dirty for
`PermissionError`/`OSError` and unexpected errors, but deliberately not for
`TypeError`/`ValueError` serialization errors. -/
theorem save_client_data_failure_amended (m : ClientManager) (e : SaveError)
    (h : m.data_dirty = true) :
    (save_client_data m (some e)).2 = false ∧
    (save_client_data m (some e)).1.data_dirty =
      decide (e ≠ SaveError.serde_error) := by
  cases e <;>
    simp [save_client_data, get_data_snapshot_and_mark_clean, mark_data_dirty, h]

/-- Witness for the amended claim of C6: an `OSError` failure re-marks dirty and
leaves no temp file. -/
theorem save_client_data_failure_amended_witness :
    (save_client_data mC6 (some SaveError.os_error)).2 = false ∧
    (save_client_data mC6 (some SaveError.os_error)).1.data_dirty =
      decide (SaveError.os_error ≠ SaveError.serde_error) :=
  save_client_data_failure_amended mC6 SaveError.os_error rfl

/-- Number of clients in a list with `now - last_seen ≤ thr` (the `active`
criterion of `get_stats`). -/
def count_active (now thr : ℚ) : List (String × ClientInfo) → ℕ
  | [] => 0
  | (_, info) :: rest =>
      (if now - info.last_seen ≤ thr then 1 else 0) + count_active now thr rest

/-- One step of the `get_stats` loop: the three ping-state counters together
gain exactly one, `total` is untouched, and `active` gains one exactly for a
recently-seen client. -/
theorem stats_step_counts (now thr : ℚ) (s : Stats) (info : ClientInfo) :
    (stats_step now thr s info).online + (stats_step now thr s info).offline +
        (stats_step now thr s info).never_pinged
      = s.online + s.offline + s.never_pinged + 1 ∧
    (stats_step now thr s info).total = s.total ∧
    (stats_step now thr s info).active
      = s.active + (if now - info.last_seen ≤ thr then 1 else 0) := by
  unfold stats_step
  by_cases h1 : now - info.last_seen ≤ thr <;>
    by_cases h2 : info.last_ping_at = 0 <;>
      by_cases h3 : info.last_ping_ok <;>
        simp [h1, h2, h3] <;> omega

/-- Loop invariant of `get_stats`: after folding over a client list, the
ping-state counters gain the list length, `total` is untouched, and `active`
gains the number of recently-seen clients. -/
theorem stats_fold_counts (now thr : ℚ) (l : List (String × ClientInfo)) :
    ∀ s : Stats,
      (stats_fold now thr s l).online + (stats_fold now thr s l).offline +
          (stats_fold now thr s l).never_pinged
        = s.online + s.offline + s.never_pinged + l.length ∧
      (stats_fold now thr s l).total = s.total ∧
      (stats_fold now thr s l).active = s.active + count_active now thr l := by
  induction l with
  | nil => intro s; simp [stats_fold, count_active]
  | cons hd tl ih =>
    intro s
    obtain ⟨k, info⟩ := hd
    obtain ⟨ih1, ih2, ih3⟩ := ih (stats_step now thr s info)
    obtain ⟨st1, st2, st3⟩ := stats_step_counts now thr s info
    simp only [stats_fold, List.length_cons, count_active]
    refine ⟨?_, ?_, ?_⟩
    · rw [ih1, st1]; omega
    · rw [ih2, st2]
    · rw [ih3, st3]; omega

/-- C7: for every registry state, `get_stats(threshold)` classifies each
client into exactly one of `never_pinged` / `online` / `offline`, so
`online + offline + never_pinged = total` with `total` the registry size,
and `active` is counted independently from `now − last_seen ≤ threshold`. -/
theorem get_stats_partition (m : ClientManager) (now thr : ℚ) :
    (get_stats m now thr).online + (get_stats m now thr).offline +
        (get_stats m now thr).never_pinged = (get_stats m now thr).total ∧
    (get_stats m now thr).total = m.clients.length ∧
    (get_stats m now thr).active = count_active now thr m.clients := by
  obtain ⟨h1, h2, h3⟩ :=
    stats_fold_counts now thr m.clients
      { total := m.clients.length, active := 0, online := 0, offline := 0,
        never_pinged := 0 }
  unfold get_stats
  refine ⟨?_, ?_, ?_⟩
  · rw [h1, h2]; simp
  · rw [h2]
  · simpa using h3

/-- A task that passes the `get_ready_ips` validity check has its ip in the
client map and carries the current version. -/
theorem task_current_spec (s : Scheduler) (t : PingTask)
    (h : task_current s t = true) :
    (alookup s.clients t.ip).isSome = true ∧
    alookup s.client_versions t.ip = some t.task_version := by
  unfold task_current at h
  rw [Bool.and_eq_true] at h
  refine ⟨h.1, ?_⟩
  rcases heq : alookup s.client_versions t.ip with _ | v
  · rw [heq] at h
    simp at h
  · rw [heq] at h
    obtain ⟨-, h2⟩ := h
    simp at h2
    rw [h2]

/-- C2: a single `get_ready_ips()` call returns each ip at most once, and
only ips with a queued task due by `now` whose version matches the current
version and whose ip still exists in the client map; stale-version tasks are
dropped, so repeated `update_ping_result` pushes never yield a duplicate. -/
theorem get_ready_ips_once_and_valid (s : Scheduler) (now : ℚ) :
    (get_ready_ips s now).1.Nodup ∧
    ∀ ip, ip ∈ (get_ready_ips s now).1 →
      ∃ t, t ∈ s.ping_queue ∧ t.ip = ip ∧ t.next_ping_time ≤ now ∧
        (alookup s.clients ip).isSome = true ∧
        alookup s.client_versions ip = some t.task_version := by
  constructor
  · exact List.nodup_dedup _
  · intro ip hip
    unfold get_ready_ips at hip
    simp only [List.mem_dedup, List.mem_map, List.mem_filter] at hip
    obtain ⟨t, ⟨⟨htq, hdue⟩, hcur⟩, rfl⟩ := hip
    obtain ⟨hcl, hver⟩ := task_current_spec s t hcur
    exact ⟨t, htq, rfl, by simpa using hdue, hcl, hver⟩

def sC2 : Scheduler :=
  { ping_queue := [⟨"10.147.17.4", 5, 1⟩],
    clients := [("10.147.17.4", ⟨0, false, 0⟩)],
    client_versions := [("10.147.17.4", 1)],
    ping_result_count := 0,
    ping_interval := 60 }

/-- Witness for C2 at a concrete scheduler with one due, current task. -/
theorem get_ready_ips_once_and_valid_witness :
    ∃ t, t ∈ sC2.ping_queue ∧ t.ip = "10.147.17.4" ∧ t.next_ping_time ≤ 10 ∧
      (alookup sC2.clients "10.147.17.4").isSome = true ∧
      alookup sC2.client_versions "10.147.17.4" = some t.task_version :=
  (get_ready_ips_once_and_valid sC2 10).2 "10.147.17.4" (by decide)

/-- Removing a key from an association list makes its lookup `none`. -/
theorem alookup_aremove_self {α : Type} (l : List (String × α)) (ip : String) :
    alookup (aremove l ip) ip = none := by
  induction l with
  | nil => rfl
  | cons hd tl ih =>
    obtain ⟨k, v⟩ := hd
    unfold aremove at ih ⊢
    rw [List.filter_cons]
    simp only [ne_eq, decide_not] at ih
    by_cases h : k = ip
    · simp [h, ih]
    · simpa [alookup, h] using ih

/-- An ip absent from the client map is never emitted by `get_ready_ips`. -/
theorem get_ready_ips_absent (s : Scheduler) (now : ℚ) (ip : String)
    (h : alookup s.clients ip = none) :
    ip ∉ (get_ready_ips s now).1 := by
  intro hmem
  unfold get_ready_ips at hmem
  simp only [List.mem_dedup, List.mem_map, List.mem_filter] at hmem
  obtain ⟨t, ⟨⟨-, -⟩, hcur⟩, rfl⟩ := hmem
  have hcl := (task_current_spec s t hcur).1
  rw [h] at hcl
  simp at hcl

/-- An ip absent from the client map stays absent and is never emitted over
any sequence of `get_ready_ips` calls. -/
theorem ready_seq_absent (ip : String) (times : List ℚ) :
    ∀ s : Scheduler, alookup s.clients ip = none →
      ∀ out ∈ ready_seq s times, ip ∉ out := by
  induction times with
  | nil =>
    intro s _ out hout
    simp [ready_seq] at hout
  | cons t ts ih =>
    intro s h out hout
    simp only [ready_seq, List.mem_cons] at hout
    rcases hout with rfl | hout
    · exact get_ready_ips_absent s t ip h
    · exact ih (get_ready_ips s t).2 h out hout

/-- C3: once `remove_client(ip)` ran and ip was not re-added, no sequence of
subsequent `get_ready_ips()` calls ever returns ip, however many tasks for
ip remain queued. -/
theorem remove_client_never_ready (s : Scheduler) (ip : String)
    (times : List ℚ) :
    ∀ out ∈ ready_seq (remove_client s ip) times, ip ∉ out :=
  ready_seq_absent ip times (remove_client s ip)
    (alookup_aremove_self s.clients ip)

def sC3 : Scheduler :=
  { ping_queue := [⟨"10.147.17.5", 5, 1⟩],
    clients := [("10.147.17.5", ⟨0, false, 0⟩)],
    client_versions := [("10.147.17.5", 1)],
    ping_result_count := 0,
    ping_interval := 60 }

/-- Witness for C3: after removing the only client, the next cycle emits
nothing, and in particular not the removed ip. -/
theorem remove_client_never_ready_witness :
    "10.147.17.5" ∉ ([] : List String) :=
  remove_client_never_ready sC3 "10.147.17.5" [10] [] (by decide)

/-- C9: a compaction pass over a queue of fewer than 20 tasks leaves the
scheduler untouched (whatever trigger invoked it), and any rebuild implies
at least 20 queued tasks with more than 10% of them removable. -/
theorem cleanup_queue_frame (s : Scheduler) (now : ℚ) :
    (s.ping_queue.length < 20 → cleanup_queue s now = s) ∧
    (cleanup_queue s now ≠ s →
      20 ≤ s.ping_queue.length ∧
      (1 : ℚ) / 10 <
        ((s.ping_queue.length -
            (s.ping_queue.filter (cleanup_keep s now)).length : ℕ) : ℚ)
          / (s.ping_queue.length : ℚ)) := by
  constructor
  · intro hlt
    unfold cleanup_queue
    by_cases h1 : s.ping_queue.length ≤ 5
    · simp [h1]
    · simp [h1, hlt]
  · intro hne
    unfold cleanup_queue at hne
    split at hne
    · exact absurd rfl hne
    · split at hne
      · exact absurd rfl hne
      · split at hne
        · rename_i h1 h2 h3
          exact ⟨by omega, h3⟩
        · exact absurd rfl hne

def sC9 : Scheduler :=
  { ping_queue := [⟨"10.147.17.6", 1, 9⟩, ⟨"10.147.17.6", 2, 9⟩,
                   ⟨"10.147.17.6", 3, 9⟩, ⟨"10.147.17.6", 4, 9⟩,
                   ⟨"10.147.17.6", 5, 9⟩, ⟨"10.147.17.6", 6, 9⟩],
    clients := [],
    client_versions := [],
    ping_result_count := 0,
    ping_interval := 60 }

/-- Witness for C9: six queued tasks, all of them removable (their client is
gone), yet the compaction pass changes nothing. -/
theorem cleanup_queue_frame_witness :
    sC9.ping_queue.length < 20 ∧ cleanup_queue sC9 0 = sC9 :=
  ⟨by decide, (cleanup_queue_frame sC9 0).1 (by decide)⟩

/-- Lookup over appended association lists. -/
theorem alookup_append_isSome {α : Type} (l1 l2 : List (String × α))
    (j : String) :
    (alookup (l1 ++ l2) j).isSome
      = ((alookup l1 j).isSome || (alookup l2 j).isSome) := by
  induction l1 with
  | nil => simp [alookup]
  | cons hd tl ih =>
    obtain ⟨k, v⟩ := hd
    by_cases h : k = j <;> simp [alookup, h, ih]

/-- Update `aupdate` never adds or removes keys. -/
theorem alookup_aupdate_isSome {α : Type} (l : List (String × α))
    (ip j : String) (v : α) :
    (alookup (aupdate l ip v) j).isSome = (alookup l j).isSome := by
  induction l with
  | nil => rfl
  | cons hd tl ih =>
    obtain ⟨k, w⟩ := hd
    unfold aupdate
    by_cases h : k = ip
    · subst h
      rw [if_pos rfl]
      by_cases h2 : k = j <;> simp [alookup, h2]
    · rw [if_neg h]
      by_cases h2 : k = j <;> simp [alookup, h2, ih]

/-- Registration `add_or_update_client(ip, last_seen=now)` keeps every existing key and
adds at most the key `ip`. -/
theorem add_or_update_lookup (m : ClientManager) (ip j : String) (now : ℚ) :
    (alookup (add_or_update_last_seen m ip now).clients j).isSome = true ↔
      ((alookup m.clients j).isSome = true ∨ j = ip) := by
  unfold add_or_update_last_seen
  rcases hip : alookup m.clients ip with _ | c
  · simp only [hip]
    show (alookup (m.clients ++ [(ip, ⟨now, false, 0⟩)]) j).isSome = true ↔ _
    rw [alookup_append_isSome]
    by_cases h : ip = j
    · subst h
      simp [alookup]
    · have hji : ¬ (j = ip) := fun hh => h hh.symm
      simp [alookup, h, hji]
  · simp only [hip]
    by_cases h : c.last_seen = now
    · rw [if_pos h]
      constructor
      · intro hs
        exact Or.inl hs
      · rintro (hs | rfl)
        · exact hs
        · simp [hip]
    · rw [if_neg h]
      show (alookup (aupdate m.clients ip _) j).isSome = true ↔ _
      rw [alookup_aupdate_isSome]
      constructor
      · intro hs
        exact Or.inl hs
      · rintro (hs | rfl)
        · exact hs
        · simp [hip]

/-- Registering a list of ips one by one keeps every existing key and adds
exactly the keys of the list. -/
theorem foldl_add_lookup (now : ℚ) (j : String) (ips : List String) :
    ∀ m : ClientManager,
      (alookup
          (ips.foldl (fun acc ip => add_or_update_last_seen acc ip now)
            m).clients j).isSome = true ↔
        ((alookup m.clients j).isSome = true ∨ j ∈ ips) := by
  induction ips with
  | nil =>
    intro m
    simp
  | cons hd tl ih =>
    intro m
    simp only [List.foldl_cons, List.mem_cons]
    rw [ih (add_or_update_last_seen m hd now), add_or_update_lookup]
    tauto

/-- C8: `POST /clients/remember` answers 400 exactly when the submitted list
is empty, longer than 20, or contains no valid ip (too long, malformed,
loopback, link-local, multicast, reserved or unspecified); otherwise it
registers exactly the valid ips and answers `ok` with `count` the number of
valid ips and `filtered_count` the number submitted minus `count`. -/
theorem remember_clients_spec (parse : String → Option Addr)
    (m : ClientManager) (now : ℚ) (ips : List String) :
    ((remember_clients parse m now ips).1 = RememberResult.bad_request ↔
      (ips = [] ∨ MAX_IPS_PER_REQUEST < ips.length ∨
        ips.filter (ip_ok parse) = [])) ∧
    ((remember_clients parse m now ips).1 ≠ RememberResult.bad_request →
      (remember_clients parse m now ips).1 =
        RememberResult.ok (ips.filter (ip_ok parse)).length
          (remember_clients parse m now ips).2.clients.length
          (ips.length - (ips.filter (ip_ok parse)).length) ∧
      ∀ j : String,
        ((alookup (remember_clients parse m now ips).2.clients j).isSome = true
          ↔ ((alookup m.clients j).isSome = true ∨
              (j ∈ ips ∧ ip_ok parse j = true)))) := by
  by_cases h1 : ips = []
  · have hred : remember_clients parse m now ips =
        (RememberResult.bad_request, m) := by
      unfold remember_clients
      rw [if_pos (by simpa [List.isEmpty_iff] using h1)]
    rw [hred]
    simp [h1]
  · by_cases h2 : MAX_IPS_PER_REQUEST < ips.length
    · have hred : remember_clients parse m now ips =
          (RememberResult.bad_request, m) := by
        unfold remember_clients
        rw [if_neg (by simpa [List.isEmpty_iff] using h1), if_pos h2]
      rw [hred]
      simp [h1, h2]
    · by_cases h3 : ips.filter (ip_ok parse) = []
      · have hred : remember_clients parse m now ips =
            (RememberResult.bad_request, m) := by
          unfold remember_clients
          rw [if_neg (by simpa [List.isEmpty_iff] using h1), if_neg h2,
              if_pos (by simpa [List.isEmpty_iff] using h3)]
        rw [hred]
        simp [h1, h2, h3]
      · have hred : remember_clients parse m now ips =
            (RememberResult.ok (ips.filter (ip_ok parse)).length
              ((ips.filter (ip_ok parse)).foldl
                (fun acc ip => add_or_update_last_seen acc ip now)
                m).clients.length
              (ips.length - (ips.filter (ip_ok parse)).length),
             (ips.filter (ip_ok parse)).foldl
               (fun acc ip => add_or_update_last_seen acc ip now) m) := by
          unfold remember_clients
          rw [if_neg (by simpa [List.isEmpty_iff] using h1), if_neg h2,
              if_neg (by simpa [List.isEmpty_iff] using h3)]
        rw [hred]
        constructor
        · simp [h1, h2, h3]
        · intro _
          refine ⟨rfl, ?_⟩
          intro j
          rw [foldl_add_lookup now j (ips.filter (ip_ok parse)) m]
          simp [List.mem_filter]

def parseC8 : String → Option Addr := fun t =>
  if t = "8.8.8.8" then some (Addr.v4 0x08080808) else none

def mC8 : ClientManager := ⟨[], false⟩

/-- Witness for claim C8: submitting one valid public ip and one malformed entry
registers the valid one and answers `count = 1`, `filtered_count = 1`. -/
theorem remember_clients_spec_witness :
    (remember_clients parseC8 mC8 100 ["8.8.8.8", "zzz"]).1 =
      RememberResult.ok 1 1 1 := by
  have h :=
    (remember_clients_spec parseC8 mC8 100 ["8.8.8.8", "zzz"]).2 (by decide)
  exact h.1.trans (by decide)

/-- C10: `validate_ip_address` accepts precisely the parsed addresses that
are not loopback, link-local, multicast, reserved or unspecified — in
particular global unicast addresses such as `8.8.8.8` and
`2001:4860:4860::8888` are accepted, so registration is not limited to
private, CGNAT or ULA ranges. -/
theorem validate_ip_address_accepts_global (a : Addr) :
    (validate_ip_address (some a) = true ↔
      (is_loopback a = false ∧ is_link_local a = false ∧
       is_multicast a = false ∧ is_reserved a = false ∧
       is_unspecified a = false)) ∧
    validate_ip_address (some (Addr.v4 0x08080808)) = true ∧
    validate_ip_address
      (some (Addr.v6 0x20014860486000000000000000008888)) = true ∧
    validate_ip_address none = false := by
  refine ⟨?_, by decide, by decide, rfl⟩
  unfold validate_ip_address
  simp [Bool.and_eq_true, Bool.not_eq_true', and_assoc]

end ZTR
